import Mathlib

/-!
Verification of the insurance-verification webhook (src/main.py).

The service receives a Dialogflow CX fulfillment request, extracts
policy number, insurance provider and a structured date of birth from
sessionInfo.parameters, formats the date of birth as YYYY-MM-DD, and
runs a conjunctive equality query over the Firestore "patients"
collection.  This file is a shallow embedding of that code: Python
values are the inductive PyVal, Python exceptions are Except.error,
and the Firestore client is a Store value carrying the patient
collection plus a fault flag for a raising client.
-/

namespace InsuranceVerification

/-- A Python/JSON value as handled by the webhook.  Floats are modelled
by integral floats only (float ip is the float whose value is the
integer ip): the dialog platform encodes numbers as integral floats
such as 2024.0, and CPython int() truncates a float toward zero, which
is the identity on an integral float.  Container repr rendering is not
needed by any theorem. -/
inductive PyVal where
  | none
  | str (s : String)
  | int (n : Int)
  | float (ip : Int)
  | list (xs : List PyVal)
  | dict (fields : List (String × PyVal))

/-- Python truthiness, as used by the all([...]) completeness check at
line 74 of main.py: None, "", 0, 0.0, [] and \x7b\x7d are falsy. -/
def pyTruthy : PyVal → Bool
  | .none => false
  | .str s => !(s == "")
  | .int n => !(n == 0)
  | .float ip => !(ip == 0)
  | .list xs => !xs.isEmpty
  | .dict fields => !fields.isEmpty

/-- Python obj.get(key, default): on a dict, the bound value or the
default; on any non-dict receiver an AttributeError propagates
(modelled as Except.error). -/
def dictGet : PyVal → String → PyVal → Except String PyVal
  | .dict fields, key, dflt =>
      match fields.lookup key with
      | some v => .ok v
      | Option.none => .ok dflt
  | _, _, _ => .error "AttributeError"

/-- Decimal value of a list of digit characters. -/
def digitsToNat (l : List Char) : Nat :=
  l.foldl (fun acc c => 10 * acc + (c.toNat - 48)) 0

/-- An ASCII whitespace character, as stripped by CPython int() before
parsing a string literal. -/
def isSpaceChar (c : Char) : Bool :=
  c == ' ' || c == '\t' || c == '\n' || c == '\r' || c == '\x0b' || c == '\x0c'

/-- The characters of a string with surrounding whitespace removed. -/
def trimChars (l : List Char) : List Char :=
  ((l.dropWhile isSpaceChar).reverse.dropWhile isSpaceChar).reverse

/-- CPython int(s) on a string: optional surrounding whitespace, an
optional sign, then decimal digits; anything else (for example
"2024.0") raises ValueError, modelled as Option.none here.
(Digit-group underscores are not modelled; no claim involves them.) -/
def strToInt? (s : String) : Option Int :=
  match trimChars s.data with
  | '-' :: rest =>
      if !rest.isEmpty && rest.all Char.isDigit then some (-(digitsToNat rest : Int))
      else Option.none
  | '+' :: rest =>
      if !rest.isEmpty && rest.all Char.isDigit then some (digitsToNat rest : Int)
      else Option.none
  | rest =>
      if !rest.isEmpty && rest.all Char.isDigit then some (digitsToNat rest : Int)
      else Option.none

/-- CPython int(x) as used at line 79 of main.py: identity on ints,
truncation on floats (identity on the integral floats of the model),
strict integer-literal parsing on strings (ValueError otherwise), and
TypeError on None and containers. -/
def pyToInt : PyVal → Except String Int
  | .int n => .ok n
  | .float ip => .ok ip
  | .str s =>
      match strToInt? s with
      | some n => .ok n
      | Option.none => .error "ValueError"
  | _ => .error "TypeError"

/-- Python format f"\x7bn:02d\x7d": the decimal form padded with zeros
to a minimum width of two characters. -/
def pad2 (n : Int) : String :=
  if 0 ≤ n ∧ n < 10 then "0" ++ toString n else toString n

/-- Line 79 of main.py, the canonical date string
f"\x7bint(y)\x7d-\x7bint(m):02d\x7d-\x7bint(d):02d\x7d". -/
def formatDob (y m d : Int) : String :=
  toString y ++ "-" ++ pad2 m ++ "-" ++ pad2 d

/-- The structured date-of-birth normalisation inlined at line 79 of
main.py: dob.get("year") has no default (a missing year gives None and
int(None) raises TypeError), while month and day default to the int 0. -/
def dobString (dob : PyVal) : Except String String := do
  let y ← pyToInt (← dictGet dob "year" PyVal.none)
  let m ← pyToInt (← dictGet dob "month" (.int 0))
  let d ← pyToInt (← dictGet dob "day" (.int 0))
  pure (formatDob y m d)

/-- A document of the Firestore "patients" collection, with the three
fields the query filters on.  Real documents may carry further fields
(a display name, say); this variant never reads them. -/
structure PatientRecord where
  policyNumber : String
  insuranceProvider : String
  dateOfBirth : String

/-- The Firestore client state seen by the service: the patient
collection, plus a fault flag (true when collection/where/stream raise,
for example because initialization failed or the store is unreachable)
and the text of the exception the client would raise. -/
structure Store where
  patients : List PatientRecord
  faulty : Bool
  faultMsg : String

/-- Firestore equality (the "==" filter) between a query value and a
stored string field: only a Python str can equal a string field, and
string comparison is exact and case sensitive. -/
def pyEqStr (v : PyVal) (fieldVal : String) : Bool :=
  match v with
  | .str s => s == fieldVal
  | _ => false

/-- The conjunction of the three equality filters of lines 118-121 of
main.py applied to one document. -/
def recordMatches (policy provider dob : PyVal) (r : PatientRecord) : Bool :=
  pyEqStr policy r.policyNumber && pyEqStr provider r.insuranceProvider &&
    pyEqStr dob r.dateOfBirth

/-- Line 75 of main.py. -/
def promptMsg : String :=
  "Please provide your policy number, insurance provider, and date of birth to proceed with verification."

/-- Line 131 of main.py. -/
def notFoundMsg : String :=
  "We could not find a patient with the information you provided. Please check your details and try again."

/-- Line 134 of main.py. -/
def troubleMsg : String :=
  "Sorry, I am having trouble connecting to the database. Please try again later."

/-- Python str() as invoked by an f-string interpolation, for the value
shapes a theorem evaluates (strings interpolate to themselves).
Container repr text is not tracked; no theorem renders a container. -/
def pyStrOf : PyVal → String
  | .str s => s
  | .int n => toString n
  | .float ip => toString ip ++ ".0"
  | .none => "None"
  | .list _ => "[..]"
  | .dict _ => "\x7b..\x7d"

/-- Line 128 of main.py, the confirmation f-string. -/
def verifiedMsg (provider policy : PyVal) : String :=
  "Thank you. Your insurance with " ++ pyStrOf provider ++ " and policy number " ++
    pyStrOf policy ++ " has been verified."

/-- Lines 110-134 of main.py: the conjunctive query over the patients
collection; any(docs) picks the match branch, and any exception from
the client (Store.faulty) is caught and rendered as troubleMsg. -/
def verify_patient_insurance (s : Store) (policy_number provider dob : PyVal) : String :=
  if s.faulty then troubleMsg
  else if s.patients.any (recordMatches policy_number provider dob) then
    verifiedMsg provider policy_number
  else notFoundMsg

/-- The same call as a state transition on the store: the body of
verify_patient_insurance performs only read operations (collection,
where, stream) and invokes no write API, so the resulting store is the
input store. -/
def verify_patient_insurance_run (s : Store) (policy provider dob : PyVal) :
    String × Store :=
  (verify_patient_insurance s policy provider dob, s)

/-- The store state after a sequence of verification calls. -/
def runVerifications (s : Store) (calls : List (PyVal × PyVal × PyVal)) : Store :=
  calls.foldl (fun st c => (verify_patient_insurance_run st c.1 c.2.1 c.2.2).2) s

/-- Lines 89-99 of main.py: the Dialogflow CX response envelope built
around the reply text. -/
def mkEnvelope (t : String) : PyVal :=
  .dict [("fulfillmentResponse",
    .dict [("messages",
      .list [.dict [("text", .dict [("text", .list [.str t])])]])])]

/-- Lines 48-86 of main.py: parameter extraction, the completeness
check, date normalisation and the verification call.  The result is the
reply text together with the arguments of the verify_patient_insurance
call (Option.none when the completeness branch is taken and no query is
issued).  An Except.error is a Python exception propagating out of the
handler. -/
def webhookCore (s : Store) (req : PyVal) :
    Except String (String × Option (PyVal × PyVal × String)) := do
  let session_info ← dictGet req "sessionInfo" (.dict [])
  let params ← dictGet session_info "parameters" (.dict [])
  let patient_policy_number ← dictGet params "policy_number" (.str "")
  let patient_provider ← dictGet params "insurance_provider_name" (.str "")
  let patient_dob_obj ← dictGet params "date_of_birth" (.dict [])
  if pyTruthy patient_policy_number && pyTruthy patient_provider &&
      pyTruthy patient_dob_obj then do
    let ds ← dobString patient_dob_obj
    let response_text := verify_patient_insurance s patient_policy_number
      patient_provider (.str ds)
    pure (response_text, some (patient_policy_number, patient_provider, ds))
  else
    pure (promptMsg, Option.none)

/-- The reply of one handler invocation: the reply text, the arguments
of the store query when one was issued, and the response envelope. -/
structure WebhookOut where
  response_text : String
  query_args : Option (PyVal × PyVal × String)
  envelope : PyVal

/-- Lines 42-107 of main.py: the full handler, wrapping the reply text
of webhookCore into the envelope of lines 89-99. -/
def webhook (s : Store) (req : PyVal) : Except String WebhookOut := do
  let r ← webhookCore s req
  pure ⟨r.1, r.2, mkEnvelope r.1⟩

/-! ## Helper lemmas -/

/-- The reply strings of the two query branches are distinct: the
confirmation starts with a T, the not-found reply with a W. -/
theorem verifiedMsg_head (provider policy : PyVal) :
    (verifiedMsg provider policy).data.head? = some 'T' := by
  show (((("Thank you. Your insurance with ".data ++ (pyStrOf provider).data) ++
      " and policy number ".data) ++ (pyStrOf policy).data) ++
      " has been verified.".data).head? = some 'T'
  simp only [List.head?_append]
  rfl

theorem verifiedMsg_ne_notFoundMsg (provider policy : PyVal) :
    verifiedMsg provider policy ≠ notFoundMsg := by
  intro h
  have hT := verifiedMsg_head provider policy
  rw [h] at hT
  have hW : notFoundMsg.data.head? = some 'W' := rfl
  rw [hW] at hT
  exact absurd hT (by decide)

/-- The any(docs) test of line 126 holds exactly when some record agrees
with the request on all three fields. -/
theorem any_recordMatches_iff (l : List PatientRecord) (policy provider dob : String) :
    l.any (recordMatches (.str policy) (.str provider) (.str dob)) = true ↔
      ∃ r ∈ l, r.policyNumber = policy ∧ r.insuranceProvider = provider ∧
        r.dateOfBirth = dob := by
  rw [List.any_eq_true]
  constructor
  · rintro ⟨r, hr, hm⟩
    simp only [recordMatches, pyEqStr, Bool.and_eq_true, beq_iff_eq] at hm
    exact ⟨r, hr, hm.1.1.symm, hm.1.2.symm, hm.2.symm⟩
  · rintro ⟨r, hr, hA, hB, hC⟩
    refine ⟨r, hr, ?_⟩
    simp only [recordMatches, pyEqStr, Bool.and_eq_true, beq_iff_eq]
    exact ⟨⟨hA.symm, hB.symm⟩, hC.symm⟩

/-- Whenever one of the three extracted parameters is falsy, the handler
takes the completeness branch: the reply is the prompt, no query is
issued, and the store plays no part. -/
theorem webhook_prompt_of_incomplete (s : Store) (req si params pn pr dob : PyVal)
    (h1 : dictGet req "sessionInfo" (.dict []) = .ok si)
    (h2 : dictGet si "parameters" (.dict []) = .ok params)
    (h3 : dictGet params "policy_number" (.str "") = .ok pn)
    (h4 : dictGet params "insurance_provider_name" (.str "") = .ok pr)
    (h5 : dictGet params "date_of_birth" (.dict []) = .ok dob)
    (hempty : pyTruthy pn = false ∨ pyTruthy pr = false ∨ pyTruthy dob = false) :
    webhook s req = .ok ⟨promptMsg, Option.none, mkEnvelope promptMsg⟩ := by
  have hcore : webhookCore s req = .ok (promptMsg, Option.none) := by
    simp only [webhookCore, h1, h2, h3, h4, h5, bind, Except.bind]
    rcases hempty with h | h | h <;>
      simp [h, pure, Except.pure]
  simp [webhook, hcore, bind, Except.bind, pure, Except.pure]

/-! ## Claims -/

/-- C1: for every complete VerificationRequest, the lookup is a
conjunctive exact-equality match: on a non-faulty store the reply is the
confirmation iff some patient record equals the request on policy
number, provider and date-of-birth string simultaneously (exact,
case-sensitive string comparison), and a request matched by no record
yields the not-found reply. -/
theorem c1_exact_conjunctive_match (s : Store) (hs : s.faulty = false)
    (policy provider dob : String) :
    (verify_patient_insurance s (.str policy) (.str provider) (.str dob) =
        verifiedMsg (.str provider) (.str policy) ↔
      ∃ r ∈ s.patients, r.policyNumber = policy ∧ r.insuranceProvider = provider ∧
        r.dateOfBirth = dob) ∧
    ((¬∃ r ∈ s.patients, r.policyNumber = policy ∧ r.insuranceProvider = provider ∧
        r.dateOfBirth = dob) →
      verify_patient_insurance s (.str policy) (.str provider) (.str dob) = notFoundMsg) := by
  have hv : verify_patient_insurance s (.str policy) (.str provider) (.str dob) =
      if s.patients.any (recordMatches (.str policy) (.str provider) (.str dob)) then
        verifiedMsg (.str provider) (.str policy)
      else notFoundMsg := by
    simp [verify_patient_insurance, hs]
  rw [hv]
  by_cases hm : ∃ r ∈ s.patients, r.policyNumber = policy ∧
      r.insuranceProvider = provider ∧ r.dateOfBirth = dob
  · rw [if_pos ((any_recordMatches_iff _ _ _ _).mpr hm)]
    exact ⟨⟨fun _ => hm, fun _ => rfl⟩, fun h => absurd hm h⟩
  · rw [if_neg (fun hc => hm ((any_recordMatches_iff _ _ _ _).mp hc))]
    refine ⟨⟨fun h => absurd h.symm (verifiedMsg_ne_notFoundMsg _ _), fun h => absurd h hm⟩,
      fun _ => rfl⟩

/-- Witness for C1 at the case-sensitivity example of the spec: a store
holding the record (A1, Acme, 1990-01-01) does not match the request
with provider acme. -/
theorem c1_exact_conjunctive_match_witness :
    verify_patient_insurance ⟨[⟨"A1", "Acme", "1990-01-01"⟩], false, ""⟩
      (.str "A1") (.str "acme") (.str "1990-01-01") = notFoundMsg :=
  (c1_exact_conjunctive_match ⟨[⟨"A1", "Acme", "1990-01-01"⟩], false, ""⟩ rfl
    "A1" "acme" "1990-01-01").2 (by decide)

/-- C2: whenever the extracted policy number, provider or date-of-birth
source is empty or absent (falsy after extraction, the defaults being
the empty string and the empty dict), the webhook replies with the
completeness prompt and issues no store query (query_args is none and
the store s is arbitrary, so the result does not depend on it). -/
theorem c2_incomplete_prompt_no_query (s : Store) (req si params pn pr dob : PyVal)
    (h1 : dictGet req "sessionInfo" (.dict []) = .ok si)
    (h2 : dictGet si "parameters" (.dict []) = .ok params)
    (h3 : dictGet params "policy_number" (.str "") = .ok pn)
    (h4 : dictGet params "insurance_provider_name" (.str "") = .ok pr)
    (h5 : dictGet params "date_of_birth" (.dict []) = .ok dob)
    (hempty : pyTruthy pn = false ∨ pyTruthy pr = false ∨ pyTruthy dob = false) :
    webhook s req = .ok ⟨promptMsg, Option.none, mkEnvelope promptMsg⟩ :=
  webhook_prompt_of_incomplete s req si params pn pr dob h1 h2 h3 h4 h5 hempty

/-- Witness for C2: a request carrying a policy number and a date of
birth but no provider gets the prompt, on a store whose client would
even fault if it were queried. -/
theorem c2_incomplete_prompt_no_query_witness :
    webhook ⟨[], true, "store down"⟩
      (.dict [("sessionInfo", .dict [("parameters", .dict
        [("policy_number", .str "P100"),
         ("date_of_birth", .dict [("year", .int 1985)])])])]) =
      .ok ⟨promptMsg, Option.none, mkEnvelope promptMsg⟩ :=
  c2_incomplete_prompt_no_query ⟨[], true, "store down"⟩ _ _ _ _ _ _
    rfl rfl rfl rfl rfl (Or.inr (Or.inl rfl))

/-- C4: if the store raises during the lookup, the reply is the generic
trouble-connecting apology, whatever the field values and whatever the
text of the internal fault (the reply is the constant troubleMsg, which
mentions neither). -/
theorem c4_query_fault_generic_apology (s : Store) (h : s.faulty = true)
    (policy provider dob : PyVal) :
    verify_patient_insurance s policy provider dob = troubleMsg := by
  simp [verify_patient_insurance, h]

/-- Witness for C4: even a request that would match the stored record is
answered with the apology when the client faults. -/
theorem c4_query_fault_generic_apology_witness :
    verify_patient_insurance ⟨[⟨"A1", "Acme", "1990-01-01"⟩], true, "connection reset"⟩
      (.str "A1") (.str "Acme") (.str "1990-01-01") = troubleMsg :=
  c4_query_fault_generic_apology ⟨[⟨"A1", "Acme", "1990-01-01"⟩], true, "connection reset"⟩
    rfl (.str "A1") (.str "Acme") (.str "1990-01-01")

/-- C3 counterexample: the claim asserts that the float-encoded string
components of a structured date of birth are tolerated and that
(year:"2024.0", month:"3", day:"7") yields "2024-03-07"; on the code,
CPython int("2024.0") raises ValueError, so the normalisation of that
very input propagates an exception instead of producing any string. -/
theorem c3_counterexample_float_string_year :
    dobString (.dict [("year", .str "2024.0"), ("month", .str "3"), ("day", .str "7")]) =
      .error "ValueError" := rfl

/-- C3 as amended: for every structured date-of-birth object whose
extracted year, month and day components each coerce under int() (an
int, an integral float, or an integer-literal string; month and day
default to 0 when absent), the normaliser produces the canonical string
with month and day zero-padded to two digits.  A float-encoded string
component such as "2024.0" is not tolerated: int() raises ValueError on
it. -/
theorem c3_amended_int_coercible_components (dob vy vm vd : PyVal) (y m d : Int)
    (hvy : dictGet dob "year" PyVal.none = .ok vy) (hy : pyToInt vy = .ok y)
    (hvm : dictGet dob "month" (.int 0) = .ok vm) (hm : pyToInt vm = .ok m)
    (hvd : dictGet dob "day" (.int 0) = .ok vd) (hd : pyToInt vd = .ok d) :
    dobString dob = .ok (toString y ++ "-" ++ pad2 m ++ "-" ++ pad2 d) := by
  simp [dobString, hvy, hy, hvm, hm, hvd, hd, bind, Except.bind, pure, Except.pure,
    formatDob]

/-- Witness for the amended C3: an integral float year, a numeric-string
month and an int day give the zero-padded canonical string. -/
theorem c3_amended_int_coercible_components_witness :
    dobString (.dict [("year", .float 2024), ("month", .str "3"), ("day", .int 7)]) =
      .ok "2024-03-07" :=
  c3_amended_int_coercible_components _ _ _ _ 2024 3 7 rfl rfl rfl rfl rfl rfl

/-- C5 counterexample: the claim asserts the handler never propagates an
unhandled fault and converts malformed payloads into the generic
apology; on the code, a payload whose date_of_birth is a non-empty
object without a year key reaches int(None), and the TypeError
propagates out of the handler (there is no try/except in webhook), so no
envelope and no apology are produced. -/
theorem c5_counterexample_unhandled_fault :
    webhook ⟨[], false, ""⟩
      (.dict [("sessionInfo", .dict [("parameters", .dict
        [("policy_number", .str "P1"),
         ("insurance_provider_name", .str "Acme"),
         ("date_of_birth", .dict [("month", .int 1)])])])]) =
      .error "TypeError" := rfl

/-- C5 as amended: a payload missing the expected nested keys entirely
is absorbed by the .get defaults and the handler terminates normally
with the completeness-prompt envelope (not the apology); there is no
boundary catch, and a payload whose extracted date_of_birth is truthy
but lacks an int()-coercible year propagates an unhandled fault. -/
theorem c5_amended_missing_keys_prompt (s : Store) (fields : List (String × PyVal))
    (h : fields.lookup "sessionInfo" = Option.none) :
    webhook s (.dict fields) = .ok ⟨promptMsg, Option.none, mkEnvelope promptMsg⟩ := by
  refine webhook_prompt_of_incomplete s (.dict fields) (.dict []) (.dict [])
    (.str "") (.str "") (.dict []) ?_ rfl rfl rfl rfl (Or.inl rfl)
  simp [dictGet, h]

/-- Witness for the amended C5: a payload with none of the expected keys
produces the prompt envelope, even on a store whose client would
fault. -/
theorem c5_amended_missing_keys_prompt_witness :
    webhook ⟨[], true, "boom"⟩ (.dict [("queryResult", .dict [])]) =
      .ok ⟨promptMsg, Option.none, mkEnvelope promptMsg⟩ :=
  c5_amended_missing_keys_prompt ⟨[], true, "boom"⟩ [("queryResult", .dict [])] rfl

/-- C6: on a non-faulty store, a lookup that finds at least one matching
record renders a confirmation containing both the provider name and the
policy number of the request, and a lookup that completes with zero
results renders the could-not-find-a-match reply. -/
theorem c6_render_match_and_notfound (s : Store) (hs : s.faulty = false)
    (policy provider dob : String) :
    ((∃ r ∈ s.patients, recordMatches (.str policy) (.str provider) (.str dob) r = true) →
      ∃ x y z, verify_patient_insurance s (.str policy) (.str provider) (.str dob) =
        x ++ provider ++ y ++ policy ++ z) ∧
    ((¬∃ r ∈ s.patients, recordMatches (.str policy) (.str provider) (.str dob) r = true) →
      verify_patient_insurance s (.str policy) (.str provider) (.str dob) = notFoundMsg) := by
  constructor
  · intro hm
    have ha : s.patients.any (recordMatches (.str policy) (.str provider) (.str dob)) = true :=
      List.any_eq_true.mpr hm
    refine ⟨"Thank you. Your insurance with ", " and policy number ",
      " has been verified.", ?_⟩
    have hv : verify_patient_insurance s (.str policy) (.str provider) (.str dob) =
        verifiedMsg (.str provider) (.str policy) := by
      simp [verify_patient_insurance, hs, ha]
    rw [hv]
    rfl
  · intro hm
    have ha : s.patients.any (recordMatches (.str policy) (.str provider) (.str dob)) = false := by
      rcases hb : s.patients.any (recordMatches (.str policy) (.str provider) (.str dob)) with _ | _
      · rfl
      · exact absurd (List.any_eq_true.mp hb) hm
    simp [verify_patient_insurance, hs, ha]

/-- Witness for C6: end-to-end scenario A of the spec, a matching record
for (P100, HealthCo, 1985-06-09); the rendered reply contains HealthCo
and P100. -/
theorem c6_render_match_and_notfound_witness :
    ∃ x y z, verify_patient_insurance ⟨[⟨"P100", "HealthCo", "1985-06-09"⟩], false, ""⟩
      (.str "P100") (.str "HealthCo") (.str "1985-06-09") =
      x ++ "HealthCo" ++ y ++ "P100" ++ z :=
  (c6_render_match_and_notfound ⟨[⟨"P100", "HealthCo", "1985-06-09"⟩], false, ""⟩ rfl
    "P100" "HealthCo" "1985-06-09").1 (by decide)

/-- C7: a verification call is a read-only lookup; the store state after
any number of verification calls equals the store state before them.
The embedded call performs only the read operations of lines 115-123
(collection, where, stream) and no write, so its state transition
returns the store unchanged, and so does any sequence of calls. -/
theorem c7_store_unchanged (s : Store) (calls : List (PyVal × PyVal × PyVal)) :
    runVerifications s calls = s := by
  induction calls generalizing s with
  | nil => rfl
  | cons c cs ih => exact ih s

/-- C9: a non-empty structured date of birth that has a year but is
missing the month or day key is not treated as incomplete: each missing
component silently defaults to 0 (a present component is coerced as
usual), the canonical string becomes formatDob y m d with 0 standing in
for whatever is absent (for example "(y)-00-00" when both are), and a
store query is issued with that string instead of the completeness
prompt. -/
theorem c9_missing_month_day_default_zero (s : Store) (req si params pn pr vy : PyVal)
    (dobFields : List (String × PyVal)) (y m d : Int)
    (h1 : dictGet req "sessionInfo" (.dict []) = .ok si)
    (h2 : dictGet si "parameters" (.dict []) = .ok params)
    (h3 : dictGet params "policy_number" (.str "") = .ok pn)
    (h4 : dictGet params "insurance_provider_name" (.str "") = .ok pr)
    (h5 : dictGet params "date_of_birth" (.dict []) = .ok (.dict dobFields))
    (hpn : pyTruthy pn = true) (hpr : pyTruthy pr = true)
    (hyear : dobFields.lookup "year" = some vy) (hy : pyToInt vy = .ok y)
    (hmonth : (dobFields.lookup "month" = Option.none ∧ m = 0) ∨
      (∃ vm, dobFields.lookup "month" = some vm ∧ pyToInt vm = .ok m))
    (hday : (dobFields.lookup "day" = Option.none ∧ d = 0) ∨
      (∃ vd, dobFields.lookup "day" = some vd ∧ pyToInt vd = .ok d))
    (hmissing : dobFields.lookup "month" = Option.none ∨
      dobFields.lookup "day" = Option.none) :
    webhook s req =
      .ok ⟨verify_patient_insurance s pn pr (.str (formatDob y m d)),
        some (pn, pr, formatDob y m d),
        mkEnvelope (verify_patient_insurance s pn pr (.str (formatDob y m d)))⟩ := by
  have hdobT : pyTruthy (.dict dobFields) = true := by
    cases dobFields with
    | nil => simp [List.lookup] at hyear
    | cons a l => rfl
  have e1 : dictGet (.dict dobFields) "year" PyVal.none = .ok vy := by
    simp [dictGet, hyear]
  have em : ∃ vm, dictGet (.dict dobFields) "month" (.int 0) = .ok vm ∧
      pyToInt vm = .ok m := by
    rcases hmonth with ⟨hnone, hm0⟩ | ⟨vm, hsome, hvm⟩
    · exact ⟨.int 0, by simp [dictGet, hnone], by rw [hm0]; rfl⟩
    · exact ⟨vm, by simp [dictGet, hsome], hvm⟩
  have ed : ∃ vd, dictGet (.dict dobFields) "day" (.int 0) = .ok vd ∧
      pyToInt vd = .ok d := by
    rcases hday with ⟨hnone, hd0⟩ | ⟨vd, hsome, hvd⟩
    · exact ⟨.int 0, by simp [dictGet, hnone], by rw [hd0]; rfl⟩
    · exact ⟨vd, by simp [dictGet, hsome], hvd⟩
  obtain ⟨vm, e2, e2i⟩ := em
  obtain ⟨vd, e3, e3i⟩ := ed
  have hds : dobString (.dict dobFields) = .ok (formatDob y m d) := by
    simp [dobString, e1, e2, e3, hy, e2i, e3i, bind, Except.bind, pure, Except.pure]
  have hcore : webhookCore s req =
      .ok (verify_patient_insurance s pn pr (.str (formatDob y m d)),
        some (pn, pr, formatDob y m d)) := by
    simp [webhookCore, h1, h2, h3, h4, h5, bind, Except.bind, hpn, hpr, hdobT, hds,
      pure, Except.pure]
  simp [webhook, hcore, bind, Except.bind, pure, Except.pure]

/-- Witness for C9 at a singly-missing component: year 2024 and month 3
with the day key absent query the store with "2024-03-00" (the reply is
the not-found text on an empty collection). -/
theorem c9_missing_month_day_default_zero_witness :
    webhook ⟨[], false, ""⟩
      (.dict [("sessionInfo", .dict [("parameters", .dict
        [("policy_number", .str "P1"),
         ("insurance_provider_name", .str "Acme"),
         ("date_of_birth", .dict [("year", .int 2024), ("month", .int 3)])])])]) =
      .ok ⟨notFoundMsg, some (.str "P1", .str "Acme", "2024-03-00"),
        mkEnvelope notFoundMsg⟩ :=
  c9_missing_month_day_default_zero ⟨[], false, ""⟩ _ _ _ _ _ _
    [("year", .int 2024), ("month", .int 3)] 2024 3 0
    rfl rfl rfl rfl rfl rfl rfl rfl rfl
    (Or.inr ⟨.int 3, rfl, rfl⟩) (Or.inl ⟨rfl, rfl⟩) (Or.inr rfl)

/-- C10: every reply the handler returns normally is the structured
envelope fulfillmentResponse.messages[0].text.text[0] built from the
reply text: exactly one message, holding exactly one text string, and
no routing tag field anywhere in the envelope (mkEnvelope has exactly
the two nested keys shown in its definition). -/
theorem c10_envelope_shape (s : Store) (req : PyVal) (out : WebhookOut)
    (h : webhook s req = .ok out) :
    out.envelope = mkEnvelope out.response_text := by
  rw [webhook] at h
  cases hc : webhookCore s req with
  | error e =>
      rw [hc] at h
      simp [bind, Except.bind] at h
  | ok r =>
      rw [hc] at h
      simp only [bind, Except.bind, pure, Except.pure, Except.ok.injEq] at h
      rw [← h]

/-- Witness for C10 on a concrete request taking the completeness
branch. -/
theorem c10_envelope_shape_witness :
    (⟨promptMsg, Option.none, mkEnvelope promptMsg⟩ : WebhookOut).envelope =
      mkEnvelope (⟨promptMsg, Option.none, mkEnvelope promptMsg⟩ : WebhookOut).response_text :=
  c10_envelope_shape ⟨[], false, ""⟩ (.dict [("sessionInfo", .dict [])])
    ⟨promptMsg, Option.none, mkEnvelope promptMsg⟩ rfl

end InsuranceVerification
